import Mathlib

/-!
Verification of the time-profiling subsystem in
`source/Lib/CommonLib/TimeProfiler.h` (vvdec).

Shallow embedding: monotonic time points and durations (C++ `double`
milliseconds) are modelled as rationals; each profiler operation that reads
`clock::now()` takes the observed time `now` as an explicit argument.  The
`E_TIME_PROF_STAGES` enumeration assigns values 0..11 with
`P_VOID = P_STAGES = 11`, and `m_numStages = P_STAGES + 1 = 12` accumulation
slots, so `STAGE` is `Fin 12`.
-/

/-- The `STAGE` enumeration: indices 0..11, where 11 is the shared value of
`P_STAGES` and `P_VOID` (the idle sentinel slot). -/
abbrev STAGE := Fin 12

def P_NALU_SLICE_PIC_HL : STAGE := ⟨0, by decide⟩

def P_CONTROL_PARSE_DERIVE_LL : STAGE := ⟨1, by decide⟩

def P_PARSERESIDUALS : STAGE := ⟨2, by decide⟩

def P_INTRAPRED : STAGE := ⟨3, by decide⟩

def P_MOTCOMP : STAGE := ⟨4, by decide⟩

def P_ITRANS_REC : STAGE := ⟨5, by decide⟩

def P_DBFILTER : STAGE := ⟨6, by decide⟩

def P_SAO : STAGE := ⟨7, by decide⟩

def P_RESHAPER : STAGE := ⟨8, by decide⟩

def P_ALF : STAGE := ⟨9, by decide⟩

def P_OTHER : STAGE := ⟨10, by decide⟩

def P_VOID : STAGE := ⟨11, by decide⟩

/-- The string table generated by `MAKE_ENUM_AND_STRINGS` (one string per
enumerator, including `P_STAGES` and the aliased `P_VOID = P_STAGES`); the
report only reads indices `0 .. P_STAGES - 1`. -/
def stageNames : Nat → String := fun i =>
  match i with
  | 0 => "P_NALU_SLICE_PIC_HL"
  | 1 => "P_CONTROL_PARSE_DERIVE_LL"
  | 2 => "P_PARSERESIDUALS"
  | 3 => "P_INTRAPRED"
  | 4 => "P_MOTCOMP"
  | 5 => "P_ITRANS_REC"
  | 6 => "P_DBFILTER"
  | 7 => "P_SAO"
  | 8 => "P_RESHAPER"
  | 9 => "P_ALF"
  | 10 => "P_OTHER"
  | 11 => "P_STAGES"
  | _ => "P_VOID = P_STAGES"

/-- Scalar profiler state (`class TimeProfiler`): last-transition time point
`m_previous`, active stage `m_eStage`, and the accumulation vector
`durations` of fixed size `m_numStages = 12`, modelled as a total function
on `STAGE`. -/
structure TimeProfiler where
  m_previous : ℚ
  m_eStage : STAGE
  durations : STAGE → ℚ

namespace TimeProfiler

/-- The constructor: `m_eStage = P_VOID`, `m_previous = clock::now()`
(the construction time `tc`), and `init()` zeroing every duration slot. -/
def init (tc : ℚ) : TimeProfiler :=
  { m_previous := tc, m_eStage := P_VOID, durations := fun _ => 0 }

/-- Embeds `operator()(STAGE s)`: reads `now`, adds `now - m_previous` to the slot
of the currently active stage, then sets `m_previous = now` and
`m_eStage = s`. -/
def transition (p : TimeProfiler) (s : STAGE) (now : ℚ) : TimeProfiler :=
  { m_previous := now
    m_eStage := s
    durations :=
      Function.update p.durations p.m_eStage
        (p.durations p.m_eStage + (now - p.m_previous)) }

/-- Embeds `start(STAGE s)`: resets `m_previous = clock::now()` and sets the active
stage, without flushing the open interval. -/
def start (p : TimeProfiler) (s : STAGE) (now : ℚ) : TimeProfiler :=
  { p with m_previous := now, m_eStage := s }

/-- Embeds `stop(STAGE s)`: reads `now` and adds `now - m_previous` to the active
stage's slot.  The argument `s` is not used; neither `m_eStage` nor
`m_previous` is modified. -/
def stop (p : TimeProfiler) (s : STAGE) (now : ℚ) : TimeProfiler :=
  { p with
    durations :=
      Function.update p.durations p.m_eStage
        (p.durations p.m_eStage + (now - p.m_previous)) }

/-- Embeds `curStage()`. -/
def curStage (p : TimeProfiler) : STAGE := p.m_eStage

/-- Embeds `operator+=(const TimeProfiler&)`: elementwise addition of the two
duration vectors (both always of length 12); leaves `m_previous` and
`m_eStage` of the left operand unchanged. -/
def merge (p other : TimeProfiler) : TimeProfiler :=
  { p with durations := fun s => p.durations s + other.durations s }

/-- Embeds `counted` in `operator<<`: `std::accumulate(durations.begin(),
durations.end()-1, ...)`, i.e. the sum of slots 0..10, excluding only the
last slot (index 11, the `P_VOID` sentinel). -/
def counted (p : TimeProfiler) : ℚ :=
  ∑ i : Fin 11, p.durations (Fin.castSucc i)

/-- The per-stage rows emitted by `operator<<`: for each `i < P_STAGES` in
order whose duration is nonzero, a row `(stageNames[i], duration,
duration / counted * 100)`. -/
def reportRows (p : TimeProfiler) : List (String × ℚ × ℚ) :=
  ((List.finRange 11).filter
      (fun i => p.durations (Fin.castSucc i) != 0)).map
    (fun i =>
      (stageNames i.val, p.durations (Fin.castSucc i),
        p.durations (Fin.castSucc i) / counted p * 100))

/-- The final row of `operator<<`: the counted total and the literal
percentage `100.00`. -/
def totalRow (p : TimeProfiler) : ℚ × ℚ := (counted p, 100)

end TimeProfiler

/-- A sequence of `operator()` calls, each given as (stage, observed time). -/
def runTransitions (p : TimeProfiler) (calls : List (STAGE × ℚ)) :
    TimeProfiler :=
  calls.foldl (fun q c => q.transition c.1 c.2) p

/-- Scope guard `StageTimeProfiler`: stores the captured previous stage. -/
structure StageTimeProfiler where
  m_ePrevStage : STAGE

/-- Guard construction: captures `curStage()` into the guard, then calls
`operator()(newStage)` on the profiler; returns the guard and the updated
profiler. -/
def guardEnter (p : TimeProfiler) (s : STAGE) (now : ℚ) :
    StageTimeProfiler × TimeProfiler :=
  (⟨p.curStage⟩, p.transition s now)

/-- Guard destruction: calls `operator()(m_ePrevStage)` on the profiler. -/
def guardExit (g : StageTimeProfiler) (p : TimeProfiler) (now : ℚ) :
    TimeProfiler :=
  p.transition g.m_ePrevStage now

/-- Spatial profiler state (`class TimeProfiler2D`): active stage, current
coordinates, last time point, and the accumulation cells
`m_counters[z][stage][y][x]` modelled as a total function (the extents
`numX, numY, numZ` bound the indices actually used by callers). -/
structure TimeProfiler2D where
  m_previous : ℚ
  m_stage : STAGE
  m_curX : ℕ
  m_curY : ℕ
  m_curZ : ℕ
  m_counters : ℕ → STAGE → ℕ → ℕ → ℚ

namespace TimeProfiler2D

/-- The constructor: stage `P_VOID`, current coordinates `(0,0,0)`,
`m_previous = clock::now()`, all counter cells initialised to zero. -/
def init (tc : ℚ) : TimeProfiler2D :=
  { m_previous := tc, m_stage := P_VOID, m_curX := 0, m_curY := 0,
    m_curZ := 0, m_counters := fun _ _ _ _ => 0 }

/-- Embeds `count(STAGE s, unsigned x, y, z)`: reads `now`, adds
`now - m_previous` to cell `m_counters[m_curZ][m_stage][m_curY][m_curX]`
(the previously active key), then sets the stage, the coordinates, and
`m_previous = now`. -/
def count (p : TimeProfiler2D) (s : STAGE) (x y z : ℕ) (now : ℚ) :
    TimeProfiler2D :=
  { m_previous := now
    m_stage := s
    m_curX := x
    m_curY := y
    m_curZ := z
    m_counters := fun z0 s0 y0 x0 =>
      if z0 = p.m_curZ ∧ s0 = p.m_stage ∧ y0 = p.m_curY ∧ x0 = p.m_curX then
        p.m_counters z0 s0 y0 x0 + (now - p.m_previous)
      else p.m_counters z0 s0 y0 x0 }

/-- Embeds `start(STAGE s)`: resets `m_previous` and sets the stage. -/
def start (p : TimeProfiler2D) (s : STAGE) (now : ℚ) : TimeProfiler2D :=
  { p with m_previous := now, m_stage := s }

/-- Embeds `stop(STAGE s)`: calls `count(m_stage, m_curX, m_curY, m_curZ)`;
the argument `s` is not used. -/
def stop (p : TimeProfiler2D) (s : STAGE) (now : ℚ) : TimeProfiler2D :=
  p.count p.m_stage p.m_curX p.m_curY p.m_curZ now

end TimeProfiler2D

/-- The tracked total as the specification describes it: the sum of the
accumulated durations over all stages other than the "none" sentinel
`P_VOID`.  Stated from the spec's words, to be compared with `counted`. -/
def trackedTotal (p : TimeProfiler) : ℚ :=
  ∑ s in Finset.univ.filter (fun s : STAGE => s ≠ P_VOID), p.durations s

/-- Composition of a nested pair of scope guards: an outer guard for stage
`Y` constructed at `t0`, an inner guard for stage `X` constructed at `t1`
and destroyed at `t2`, and the outer guard destroyed at `t3`, all on a
profiler freshly constructed at `tc`. -/
def nestedGuardRun (tc t0 t1 t2 t3 : ℚ) (X Y : STAGE) : TimeProfiler :=
  let e1 := guardEnter (TimeProfiler.init tc) Y t0
  let e2 := guardEnter e1.2 X t1
  let p3 := guardExit e2.1 e2.2 t2
  guardExit e1.1 p3 t3

/-- A profiler state whose only nonzero accumulation slot is the `P_OTHER`
stage, holding 5 ms. -/
def otherOnlyProfiler : TimeProfiler :=
  { m_previous := 0, m_eStage := P_VOID,
    durations := Function.update (fun _ => 0) P_OTHER 5 }

lemma counted_eq_trackedTotal (p : TimeProfiler) :
    TimeProfiler.counted p = trackedTotal p := by
  have h1 : ∑ i : Fin 12, p.durations i
      = (∑ i : Fin 11, p.durations (Fin.castSucc i))
          + p.durations (Fin.last 11) :=
    Fin.sum_univ_castSucc (fun i => p.durations i)
  have h2 : trackedTotal p + p.durations P_VOID
      = ∑ i : Fin 12, p.durations i := by
    unfold trackedTotal
    rw [Finset.filter_ne']
    exact Finset.sum_erase_add _ _ (Finset.mem_univ P_VOID)
  have h3 : (Fin.last 11 : Fin 12) = P_VOID := rfl
  rw [h3] at h1
  unfold TimeProfiler.counted
  linarith

lemma filter_map_eq_filterMap {α β : Type} (q : α → Bool) (f : α → β)
    (l : List α) :
    (l.filter q).map f
      = l.filterMap (fun a => if q a then some (f a) else none) := by
  induction l with
  | nil => rfl
  | cons a l ih =>
    cases hq : q a <;>
      simp [List.filter_cons, List.filterMap_cons, hq, ih]

lemma trackedTotal_transition_of_ne (p : TimeProfiler) (s : STAGE) (now : ℚ)
    (h : p.m_eStage ≠ P_VOID) :
    trackedTotal (p.transition s now)
      = trackedTotal p + (now - p.m_previous) := by
  unfold trackedTotal TimeProfiler.transition
  have hm : p.m_eStage ∈ Finset.univ.filter (fun u : STAGE => u ≠ P_VOID) := by
    simp [h]
  rw [Finset.sum_update_of_mem hm, Finset.sdiff_singleton_eq_erase]
  rw [← Finset.add_sum_erase _ _ hm]
  ring

lemma trackedTotal_transition_of_void (p : TimeProfiler) (s : STAGE) (now : ℚ)
    (h : p.m_eStage = P_VOID) :
    trackedTotal (p.transition s now) = trackedTotal p := by
  unfold trackedTotal TimeProfiler.transition
  have hm : p.m_eStage ∉ Finset.univ.filter (fun u : STAGE => u ≠ P_VOID) := by
    simp [h]
  exact Finset.sum_update_of_not_mem hm p.durations
    (p.durations p.m_eStage + (now - p.m_previous))

lemma trackedTotal_init (tc : ℚ) : trackedTotal (TimeProfiler.init tc) = 0 := by
  simp [trackedTotal, TimeProfiler.init]

/-- C1: retroactive attribution of `operator()`: on any state, the elapsed
interval `now - m_previous` is added to the slot of the stage active before
the call, other slots are unchanged, the active stage becomes the incoming
stage, and the timestamp becomes `now`; and on the concrete scenario
`start(P_INTRAPRED)` at 0, `operator()(P_MOTCOMP)` at 10,
`operator()(P_VOID)` at 15, the accumulated durations are INTRA = 10,
MOTCOMP = 5, with a counted total of 15. -/
theorem transition_retroactive_attribution (p : TimeProfiler) (s : STAGE)
    (now : ℚ) :
    (p.transition s now).durations p.m_eStage
        = p.durations p.m_eStage + (now - p.m_previous) ∧
    (∀ u : STAGE, u ≠ p.m_eStage →
        (p.transition s now).durations u = p.durations u) ∧
    (p.transition s now).m_eStage = s ∧
    (p.transition s now).m_previous = now ∧
    ((((TimeProfiler.init 0).start P_INTRAPRED 0).transition
          P_MOTCOMP 10).transition P_VOID 15).durations P_INTRAPRED = 10 ∧
    ((((TimeProfiler.init 0).start P_INTRAPRED 0).transition
          P_MOTCOMP 10).transition P_VOID 15).durations P_MOTCOMP = 5 ∧
    TimeProfiler.counted ((((TimeProfiler.init 0).start P_INTRAPRED
          0).transition P_MOTCOMP 10).transition P_VOID 15) = 15 := by
  refine ⟨?_, ?_, rfl, rfl, ?_, ?_, ?_⟩
  · simp [TimeProfiler.transition]
  · intro u hu
    simp [TimeProfiler.transition, Function.update_noteq hu]
  all_goals
    norm_num [TimeProfiler.counted, Fin.sum_univ_succ, TimeProfiler.transition,
      TimeProfiler.start, TimeProfiler.init, Function.update_apply,
      Fin.ext_iff, Fin.val_succ, Fin.coe_castSucc,
      P_INTRAPRED, P_MOTCOMP, P_VOID]

/-- Witness for C1 at a concrete state: a slot different from the active one
is unchanged by a transition. -/
theorem transition_retroactive_attribution_witness :
    ((TimeProfiler.init 0).transition P_MOTCOMP 7).durations P_INTRAPRED
      = (TimeProfiler.init 0).durations P_INTRAPRED :=
  (transition_retroactive_attribution (TimeProfiler.init 0) P_MOTCOMP 7).2.1
    P_INTRAPRED (by decide)

/-- C4: `operator+=` is elementwise addition of the accumulation mappings,
and is commutative and associative on them. -/
theorem merge_elementwise_comm_assoc (A B C : TimeProfiler) :
    (∀ s : STAGE, (A.merge B).durations s = A.durations s + B.durations s) ∧
    (A.merge B).durations = (B.merge A).durations ∧
    ((A.merge B).merge C).durations = (A.merge (B.merge C)).durations := by
  refine ⟨fun s => rfl, funext fun s => ?_, funext fun s => ?_⟩ <;>
    simp [TimeProfiler.merge] <;> ring

/-- C6 counterexample: on a freshly constructed profiler, `stop` at time 5
does not produce the same state as `operator()(curStage())` at time 5,
because `stop` leaves `m_previous` unchanged while the transition sets it
to `now`. -/
theorem stop_differs_from_transition_into_current :
    (TimeProfiler.init 0).stop P_VOID 5
      ≠ (TimeProfiler.init 0).transition ((TimeProfiler.init 0).curStage) 5 := by
  intro h
  have h2 := congrArg TimeProfiler.m_previous h
  norm_num [TimeProfiler.stop, TimeProfiler.transition,
    TimeProfiler.init] at h2

/-- C6 amended: `stop` flushes the open interval `now - m_previous` into the
active stage's slot, exactly as `operator()(curStage())` would, and leaves
the active stage unchanged; but unlike that transition it does not update
the last-transition timestamp, which keeps its old value. -/
theorem stop_flushes_without_timestamp_update (p : TimeProfiler) (s : STAGE)
    (now : ℚ) :
    (p.stop s now).durations = (p.transition p.curStage now).durations ∧
    (p.stop s now).m_eStage = (p.transition p.curStage now).m_eStage ∧
    (p.stop s now).m_previous = p.m_previous :=
  ⟨rfl, rfl, rfl⟩

/-- C10: the stage argument of `stop` has no influence: both the scalar and
the spatial `stop` produce identical states for any two argument stages. -/
theorem stop_ignores_stage_argument (p : TimeProfiler) (q : TimeProfiler2D)
    (s1 s2 : STAGE) (now : ℚ) :
    p.stop s1 now = p.stop s2 now ∧ q.stop s1 now = q.stop s2 now :=
  ⟨rfl, rfl⟩

/-- C3: scope-guard nesting: guard construction captures the profiler's
current stage and transitions to the new stage, destruction transitions back
to the captured stage; and for an outer guard for `Y` entered at `t0`, an
inner guard for `X` entered at `t1` and destroyed at `t2`, and the outer
guard destroyed at `t3`, the resulting durations are `X = t2 - t1` and
`Y = (t1 - t0) + (t3 - t2)`. -/
theorem guard_nesting_correct (tc t0 t1 t2 t3 : ℚ) (X Y : STAGE)
    (hXY : X ≠ Y) (hX : X ≠ P_VOID) (hY : Y ≠ P_VOID) :
    (∀ (q : TimeProfiler) (s : STAGE) (now : ℚ),
        (guardEnter q s now).1.m_ePrevStage = q.curStage ∧
        (guardEnter q s now).2 = q.transition s now) ∧
    (∀ (g : StageTimeProfiler) (q : TimeProfiler) (now : ℚ),
        guardExit g q now = q.transition g.m_ePrevStage now) ∧
    (nestedGuardRun tc t0 t1 t2 t3 X Y).durations X = t2 - t1 ∧
    (nestedGuardRun tc t0 t1 t2 t3 X Y).durations Y
      = (t1 - t0) + (t3 - t2) := by
  refine ⟨fun q s now => ⟨rfl, rfl⟩, fun g q now => rfl, ?_, ?_⟩ <;>
    simp [nestedGuardRun, guardEnter, guardExit, TimeProfiler.curStage,
      TimeProfiler.transition, TimeProfiler.init, Function.update_apply,
      hXY, hX, hY, Ne.symm hXY, Ne.symm hX, Ne.symm hY]

/-- Witness for C3: the nested-guard scenario at concrete stages and times,
inner stage `P_INTRAPRED` from 2 to 3 inside outer stage `P_MOTCOMP` from
1 to 4. -/
theorem guard_nesting_correct_witness :
    (nestedGuardRun 0 1 2 3 4 P_INTRAPRED P_MOTCOMP).durations P_INTRAPRED
        = 3 - 2 ∧
    (nestedGuardRun 0 1 2 3 4 P_INTRAPRED P_MOTCOMP).durations P_MOTCOMP
        = (2 - 1) + (4 - 3) :=
  ⟨(guard_nesting_correct 0 1 2 3 4 P_INTRAPRED P_MOTCOMP (by decide)
      (by decide) (by decide)).2.2.1,
   (guard_nesting_correct 0 1 2 3 4 P_INTRAPRED P_MOTCOMP (by decide)
      (by decide) (by decide)).2.2.2⟩

/-- C5: spatial retroactive attribution of `count`: the elapsed interval is
added to the cell addressed by the previously active key
`(m_curZ, m_stage, m_curY, m_curX)`, all other cells are unchanged, and the
stage, coordinates and timestamp are then set to the new values; and on the
concrete scenario `count(P_INTRAPRED,1,2,0)` at 0 followed by
`count(P_MOTCOMP,3,4,0)` at 5, the cell `(z=0, P_INTRAPRED, y=2, x=1)`
holds 5. -/
theorem count_spatial_retroactive (p : TimeProfiler2D) (s : STAGE)
    (x y z : ℕ) (now : ℚ) :
    (p.count s x y z now).m_counters p.m_curZ p.m_stage p.m_curY p.m_curX
        = p.m_counters p.m_curZ p.m_stage p.m_curY p.m_curX
            + (now - p.m_previous) ∧
    (∀ z0 s0 y0 x0,
        ¬(z0 = p.m_curZ ∧ s0 = p.m_stage ∧ y0 = p.m_curY ∧ x0 = p.m_curX) →
        (p.count s x y z now).m_counters z0 s0 y0 x0
          = p.m_counters z0 s0 y0 x0) ∧
    (p.count s x y z now).m_stage = s ∧
    (p.count s x y z now).m_curX = x ∧
    (p.count s x y z now).m_curY = y ∧
    (p.count s x y z now).m_curZ = z ∧
    (p.count s x y z now).m_previous = now ∧
    (((TimeProfiler2D.init 0).count P_INTRAPRED 1 2 0 0).count
        P_MOTCOMP 3 4 0 5).m_counters 0 P_INTRAPRED 2 1 = 5 := by
  refine ⟨?_, ?_, rfl, rfl, rfl, rfl, rfl, ?_⟩
  · simp [TimeProfiler2D.count]
  · intro z0 s0 y0 x0 h
    simp only [TimeProfiler2D.count]
    exact if_neg h
  · norm_num [TimeProfiler2D.count, TimeProfiler2D.init,
      Fin.ext_iff, P_INTRAPRED, P_MOTCOMP, P_VOID]

/-- Witness for C5 at a concrete state: a cell away from the active key is
unchanged by a `count` call. -/
theorem count_spatial_retroactive_witness :
    ((TimeProfiler2D.init 0).count P_MOTCOMP 1 2 3 5).m_counters 7 P_VOID 0 0
      = (TimeProfiler2D.init 0).m_counters 7 P_VOID 0 0 :=
  (count_spatial_retroactive (TimeProfiler2D.init 0) P_MOTCOMP 1 2 3 5).2.1
    7 P_VOID 0 0 (by norm_num [TimeProfiler2D.init])

/-- C7: the reporter contract: the counted total used for percentages equals
the sum of the accumulated durations over all stages other than the
`P_VOID` sentinel; the emitted rows are, in registry order, exactly one row
per stage with nonzero duration, carrying the stage name, the duration, and
`duration / trackedTotal * 100` (no row for zero durations); and the final
TOTAL row carries the tracked total and the percentage 100. -/
theorem report_contract (p : TimeProfiler) :
    TimeProfiler.counted p = trackedTotal p ∧
    TimeProfiler.reportRows p
      = (List.finRange 11).filterMap (fun i =>
          if p.durations (Fin.castSucc i) = 0 then none
          else some (stageNames i.val, p.durations (Fin.castSucc i),
            p.durations (Fin.castSucc i) / trackedTotal p * 100)) ∧
    TimeProfiler.totalRow p = (trackedTotal p, 100) := by
  refine ⟨counted_eq_trackedTotal p, ?_, ?_⟩
  · rw [TimeProfiler.reportRows, filter_map_eq_filterMap]
    congr 1
    funext i
    by_cases h : p.durations (Fin.castSucc i) = 0
    · simp [h]
    · simp [h, counted_eq_trackedTotal p]
  · rw [TimeProfiler.totalRow, counted_eq_trackedTotal]

/-- C8 counterexample: for a freshly constructed profiler the tracked total
is 0, but the TOTAL row's percentage column is the constant 100, not 0. -/
theorem fresh_report_total_percentage_not_zero :
    TimeProfiler.totalRow (TimeProfiler.init 0) = (0, 100) ∧
    (100 : ℚ) ≠ 0 := by
  constructor
  · have h : TimeProfiler.counted (TimeProfiler.init 0) = 0 := by
      simp [TimeProfiler.counted, TimeProfiler.init]
    rw [TimeProfiler.totalRow, h]
  · norm_num

/-- C8 amended: if the counted total is 0 and all durations are nonnegative,
the report emits no per-stage rows at all (so no percentage is ever computed
by dividing by the zero total), and the TOTAL row shows a zero duration —
but its percentage column is the hardcoded constant 100 rather than 0. -/
theorem zero_tracked_report (p : TimeProfiler)
    (hnn : ∀ s : STAGE, 0 ≤ p.durations s)
    (h0 : TimeProfiler.counted p = 0) :
    TimeProfiler.reportRows p = [] ∧
    TimeProfiler.totalRow p = (0, 100) := by
  rw [TimeProfiler.counted] at h0
  have hall : ∀ i ∈ (Finset.univ : Finset (Fin 11)),
      p.durations (Fin.castSucc i) = 0 :=
    (Finset.sum_eq_zero_iff_of_nonneg
      (fun i _ => hnn (Fin.castSucc i))).mp h0
  constructor
  · rw [TimeProfiler.reportRows]
    have hnil : (List.finRange 11).filter
        (fun i => p.durations (Fin.castSucc i) != 0) = [] := by
      rw [List.filter_eq_nil_iff]
      intro a ha
      simp [hall a (Finset.mem_univ a)]
    rw [hnil]
    rfl
  · rw [TimeProfiler.totalRow, TimeProfiler.counted, h0]

/-- Witness for C8: the freshly constructed profiler (all durations zero). -/
theorem zero_tracked_report_witness :
    TimeProfiler.reportRows (TimeProfiler.init 3) = [] ∧
    TimeProfiler.totalRow (TimeProfiler.init 3) = (0, 100) :=
  zero_tracked_report (TimeProfiler.init 3)
    (fun s => le_refl 0)
    (by simp [TimeProfiler.counted, TimeProfiler.init])

/-- C9 counterexample: for the profiler whose only nonzero slot is
`P_OTHER` (5 ms), the counted total that percentages are computed against
is 5, not 0: the "other" stage's duration is part of the tracked total, and
its report row shows 100 percent. -/
theorem other_included_in_tracked_total :
    TimeProfiler.counted otherOnlyProfiler = 5 ∧
    TimeProfiler.reportRows otherOnlyProfiler = [("P_OTHER", 5, 100)] ∧
    (5 : ℚ) ≠ 0 := by
  have hc : TimeProfiler.counted otherOnlyProfiler = 5 := by
    norm_num [TimeProfiler.counted, otherOnlyProfiler, Fin.sum_univ_succ,
      Function.update_apply, Fin.ext_iff, Fin.val_succ, Fin.coe_castSucc,
      P_OTHER]
  refine ⟨hc, ?_, by norm_num⟩
  rw [TimeProfiler.reportRows, hc]
  norm_num [otherOnlyProfiler, Function.update_apply, Fin.ext_iff,
    List.finRange_succ_eq_map, List.filter_cons, List.filter_map,
    P_OTHER, stageNames]

/-- C9 amended: only the `P_VOID` ("none") sentinel slot is excluded from
the counted total that report percentages are computed against; the
`P_OTHER` stage's duration is included in that total like any real stage. -/
theorem counted_excludes_only_none (p : TimeProfiler) :
    TimeProfiler.counted p
      = p.durations P_OTHER
        + ∑ s in Finset.univ.filter
            (fun s : STAGE => s ≠ P_VOID ∧ s ≠ P_OTHER), p.durations s := by
  have hmem : P_OTHER ∉ Finset.univ.filter
      (fun s : STAGE => s ≠ P_VOID ∧ s ≠ P_OTHER) := by
    simp
  have hset : Finset.univ.filter (fun s : STAGE => s ≠ P_VOID)
      = insert P_OTHER (Finset.univ.filter
          (fun s : STAGE => s ≠ P_VOID ∧ s ≠ P_OTHER)) := by
    ext u
    simp only [Finset.mem_filter, Finset.mem_insert, Finset.mem_univ,
      true_and]
    constructor
    · intro hu
      by_cases h : u = P_OTHER
      · exact Or.inl h
      · exact Or.inr ⟨hu, h⟩
    · rintro (h | ⟨h1, h2⟩)
      · subst h
        decide
      · exact h1
  rw [counted_eq_trackedTotal, trackedTotal, hset, Finset.sum_insert hmem]

lemma runTransitions_trackedTotal (calls : List (STAGE × ℚ)) :
    ∀ (p : TimeProfiler) (sN : STAGE) (tN : ℚ),
      calls.getLast? = some (sN, tN) →
      p.m_eStage ≠ P_VOID →
      (∀ c ∈ calls.dropLast, c.1 ≠ P_VOID) →
      trackedTotal (runTransitions p calls)
        = trackedTotal p + (tN - p.m_previous) := by
  induction calls with
  | nil =>
    intro p sN tN hlast
    simp at hlast
  | cons c rest ih =>
    intro p sN tN hlast hstage hmid
    cases rest with
    | nil =>
      have hc : c = (sN, tN) := by
        simpa using hlast
      subst hc
      have h := trackedTotal_transition_of_ne p sN tN hstage
      simpa [runTransitions] using h
    | cons d ds =>
      have hlast2 : (d :: ds).getLast? = some (sN, tN) := by
        simpa using hlast
      have hc : c.1 ≠ P_VOID := hmid c (by simp)
      have hmid2 : ∀ e ∈ (d :: ds).dropLast, e.1 ≠ P_VOID := fun e he =>
        hmid e (List.mem_cons_of_mem c he)
      have key := ih (p.transition c.1 c.2) sN tN hlast2 hc hmid2
      have hrw : runTransitions p (c :: d :: ds)
          = runTransitions (p.transition c.1 c.2) (d :: ds) := rfl
      have hstep := trackedTotal_transition_of_ne p c.1 c.2 hstage
      rw [hrw, key, hstep]
      show trackedTotal p + (c.2 - p.m_previous) + (tN - c.2)
          = trackedTotal p + (tN - p.m_previous)
      ring

/-- C2: conservation: starting from a freshly constructed profiler, after a
sequence of at least two `operator()` calls at increasing times, none of
which before the last passes the `P_VOID` sentinel stage, the sum of the
accumulated durations over all stages other than `P_VOID` equals the time
of the last call minus the time of the first. -/
theorem transition_sequence_conservation (t0 t1 tN : ℚ) (s1 sN : STAGE)
    (rest : List (STAGE × ℚ))
    (hlast : rest.getLast? = some (sN, tN))
    (hchain : List.Chain (fun a b : STAGE × ℚ => a.2 < b.2) (s1, t1) rest)
    (hmid : ∀ c ∈ (s1, t1) :: rest.dropLast, c.1 ≠ P_VOID) :
    trackedTotal (runTransitions (TimeProfiler.init t0) ((s1, t1) :: rest))
      = tN - t1 := by
  have hs1 : s1 ≠ P_VOID := hmid (s1, t1) (by simp)
  have hmid2 : ∀ c ∈ rest.dropLast, c.1 ≠ P_VOID := fun c hc =>
    hmid c (List.mem_cons_of_mem _ hc)
  have h1 : trackedTotal ((TimeProfiler.init t0).transition s1 t1) = 0 := by
    rw [trackedTotal_transition_of_void _ _ _ rfl, trackedTotal_init]
  have hrw : runTransitions (TimeProfiler.init t0) ((s1, t1) :: rest)
      = runTransitions ((TimeProfiler.init t0).transition s1 t1) rest := rfl
  rw [hrw, runTransitions_trackedTotal rest _ sN tN hlast hs1 hmid2, h1]
  show 0 + (tN - t1) = tN - t1
  ring

/-- Witness for C2: three transitions at times 1, 3, 7 (the last into the
sentinel), from a profiler constructed at time 0: the tracked sum is 6. -/
theorem transition_sequence_conservation_witness :
    trackedTotal (runTransitions (TimeProfiler.init 0)
        [(P_INTRAPRED, 1), (P_MOTCOMP, 3), (P_VOID, 7)]) = 7 - 1 :=
  transition_sequence_conservation 0 1 7 P_INTRAPRED P_VOID
    [(P_MOTCOMP, 3), (P_VOID, 7)]
    (by rfl)
    (by norm_num [List.chain_cons, P_INTRAPRED, P_MOTCOMP, P_VOID])
    (by intro c hc
        simp only [List.dropLast, List.mem_cons, List.mem_singleton] at hc
        rcases hc with h | h | h
        all_goals first
          | (subst h; decide)
          | exact absurd h (by simp))
